import Mathlib

/-!
Verification of the alina-ui chat client (src/app/page.tsx and
src/app/tasks/page.tsx).

The TypeScript page components are shallowly embedded as pure Lean
functions over explicit state. Browser and platform effects are made
explicit parameters:

* the outcome of a `fetch` call (network rejection, a received response
  whose `.json()` rejects, or a received response with a parsed body)
  is a constructor of an outcome type;
* `localStorage` is an explicit record of the identity-scoped cells the
  page touches;
* `JSON.parse` / `JSON.stringify` are modelled at the level of JSON
  values: a stored string is represented by what `JSON.parse` does with
  it (key absent, empty string, a string `JSON.parse` throws on, or a
  string parsing to a JSON value `j`), and `JSON.stringify` of a message
  list is the JSON value that encodes it.

JavaScript truthiness on the optional strings the code tests
(`data.content`, `data.session_id`, `userName`, `error`, stored cells)
is modelled by `jsTruthy`: a string is truthy iff it is non-empty.
-/

/-- The `sender` field of the `Message` interface: `'user' | 'alina'`. -/
inductive Sender where
  | user
  | alina
deriving DecidableEq, Repr

/-- `interface Message { text: string; sender: 'user' | 'alina' }`. -/
structure Message where
  text : String
  sender : Sender
deriving DecidableEq, Repr

/-- The React state of `ChatPage` that the handlers under verification
read and write: `messages`, `isLoading`, `sessionId`. -/
structure ChatState where
  messages : List Message
  isLoading : Bool
  sessionId : Option String
deriving DecidableEq, Repr

/-- JavaScript truthiness of a `string | null | undefined` value:
`null`/`undefined` and the empty string are falsy. -/
def jsTruthy : Option String → Bool
  | none => false
  | some s => if s = "" then false else true

/-- JavaScript `a || b` on a `string | null` left operand. -/
def jsOr (a : Option String) (b : String) : String :=
  match a with
  | none => b
  | some s => if s = "" then b else s

/-- Outcome of the `fetch`/`response.json()` pair in `handleSendMessage`.
`netError` is `fetch` rejecting (network failure); `badJson status` is a
received response (any status) whose body is not valid JSON, so
`response.json()` rejects; `ok status content sessionId` is a received
response of the given status whose body parsed, with its optional
`content` and `session_id` string fields. The code never reads
`response.ok` or the status, which is why the status is carried here:
it lets theorems state exactly that. -/
inductive ChatTransport where
  | netError
  | badJson (status : Nat)
  | ok (status : Nat) (content : Option String) (sessionId : Option String)
deriving DecidableEq, Repr

/-- The message literal `{ text, sender: 'user' }`. -/
def userMsg (t : String) : Message :=
  { text := t, sender := Sender.user }

/-- The message literal `{ text, sender: 'alina' }`. -/
def agentMsg (t : String) : Message :=
  { text := t, sender := Sender.alina }

/-- The fallback message appended by the `catch` block of
`handleSendMessage`. -/
def fallbackMessage : Message :=
  { text := "Sorry, I encountered an error.", sender := Sender.alina }

/-- Embedding of `handleSendMessage` (src/app/page.tsx lines 148-171).
It sets `isLoading`, optimistically appends the user message, then runs
the try/catch/finally: on a transport rejection (`netError`/`badJson`)
the catch appends `fallbackMessage`; on a parsed body, a truthy
`data.content` appends an agent message and a truthy `data.session_id`
then updates the session id; the finally clears `isLoading`. The
function is total: no exception escapes the handler. -/
def handleSendMessage (st : ChatState) (messageText : String)
    (tr : ChatTransport) : ChatState :=
  let st := { st with isLoading := true }
  let st := { st with messages := st.messages ++ [userMsg messageText] }
  let st :=
    match tr with
    | ChatTransport.netError =>
        { st with messages := st.messages ++ [fallbackMessage] }
    | ChatTransport.badJson _ =>
        { st with messages := st.messages ++ [fallbackMessage] }
    | ChatTransport.ok _ content sid =>
        if jsTruthy content then
          let st := { st with
            messages := st.messages ++ [agentMsg (jsOr content "")] }
          if jsTruthy sid then { st with sessionId := sid } else st
        else st
  { st with isLoading := false }

/-- JavaScript `String.prototype.trim`: drop leading and trailing
whitespace characters. Written over the character list so it evaluates
by kernel reduction. -/
def jsTrim (s : String) : String :=
  String.mk
    (((s.data.dropWhile Char.isWhitespace).reverse.dropWhile
        Char.isWhitespace).reverse)

/-- Embedding of `ChatInputForm.handleSubmit` (src/app/page.tsx lines
33-38): the submission is rejected (`none`) when the trimmed input is
empty or a request is already in flight; otherwise the raw input is
handed to `onSendMessage`. -/
def handleSubmit (input : String) (isLoading : Bool) : Option String :=
  if jsTrim input = "" || isLoading then none else some input

/-- The body `{ user_id, user_input }` of the `POST /chat` request. -/
structure ChatRequest where
  user_id : String
  user_input : String
deriving DecidableEq, Repr

/-- The chat request issued by a submission, if any: `handleSubmit`
gates it, and `handleSendMessage` builds the body with
`userName || "User"` as `user_id`. -/
def submitRequest (userName : Option String) (st : ChatState)
    (input : String) : Option ChatRequest :=
  match handleSubmit input st.isLoading with
  | none => none
  | some text => some { user_id := jsOr userName "User", user_input := text }

/-- The effect of one submission on the chat state: nothing when
`handleSubmit` rejects, otherwise the full `handleSendMessage` run with
the given transport outcome. -/
def submitStep (st : ChatState) (input : String) (tr : ChatTransport) :
    ChatState :=
  match handleSubmit input st.isLoading with
  | none => st
  | some text => handleSendMessage st text tr

/-- Whether a transport outcome carries truthy reply text: a parsed body
whose `content` field is a non-empty string. -/
def replyContentTruthy : ChatTransport → Bool
  | ChatTransport.ok _ (some c) _ => if c = "" then false else true
  | _ => false

/-- C4: while a request is outstanding (`isLoading = true`), a further
submission is rejected at the input layer: the chat state (hence the
transcript) is unchanged and no chat request is issued, whatever the
input and whatever transport outcome would have served the request. -/
theorem submit_while_loading_noop (st : ChatState) (input : String)
    (userName : Option String) (tr : ChatTransport)
    (h : st.isLoading = true) :
    submitStep st input tr = st ∧ submitRequest userName st input = none := by
  constructor <;> simp [submitStep, submitRequest, handleSubmit, h]

/-- Witness for C4 at a concrete loading state. -/
theorem submit_while_loading_noop_witness :
    submitStep { messages := [], isLoading := true, sessionId := none }
        "hello" ChatTransport.netError
      = { messages := [], isLoading := true, sessionId := none } ∧
    submitRequest none
        { messages := [], isLoading := true, sessionId := none } "hello"
      = none :=
  submit_while_loading_noop
    { messages := [], isLoading := true, sessionId := none }
    "hello" none ChatTransport.netError rfl

/-- C5: an input whose trimmed form is empty is rejected at the input
layer: the chat state (hence the transcript) is unchanged and no chat
request is issued. -/
theorem submit_blank_input_noop (st : ChatState) (input : String)
    (userName : Option String) (tr : ChatTransport)
    (h : jsTrim input = "") :
    submitStep st input tr = st ∧ submitRequest userName st input = none := by
  constructor <;> simp [submitStep, submitRequest, handleSubmit, h]

/-- Witness for C5 at a whitespace-only input. -/
theorem submit_blank_input_noop_witness :
    submitStep { messages := [], isLoading := false, sessionId := none }
        "   " ChatTransport.netError
      = { messages := [], isLoading := false, sessionId := none } ∧
    submitRequest none
        { messages := [], isLoading := false, sessionId := none } "   "
      = none :=
  submit_blank_input_noop
    { messages := [], isLoading := false, sessionId := none }
    "   " none ChatTransport.netError (by decide)

/-- C8: a response whose body is well-formed JSON without a `content`
field appends no agent message and no error message (only the optimistic
user message remains appended), clears the loading flag, and leaves the
session id unchanged — for every status, including 200. -/
theorem send_no_content_silent (st : ChatState) (messageText : String)
    (status : Nat) (sid : Option String) :
    handleSendMessage st messageText (ChatTransport.ok status none sid)
      = { messages := st.messages ++ [userMsg messageText],
          isLoading := false,
          sessionId := st.sessionId } := by
  simp [handleSendMessage, jsTruthy]

/-- C10: the session id is updated only on a reply carrying truthy
content text; whenever the outcome carries no truthy `content` (absent,
null, or empty-string content, or any transport failure), the stored
session id is unchanged, even if the body carries a `session_id`. -/
theorem session_update_needs_content (st : ChatState)
    (messageText : String) (tr : ChatTransport)
    (h : replyContentTruthy tr = false) :
    (handleSendMessage st messageText tr).sessionId = st.sessionId := by
  cases tr with
  | netError => simp [handleSendMessage]
  | badJson status => simp [handleSendMessage]
  | ok status content sid =>
      cases content with
      | none => simp [handleSendMessage, jsTruthy]
      | some c =>
          by_cases hc : c = "" <;>
            simp_all [handleSendMessage, jsTruthy, replyContentTruthy]

/-- Witness for C10: an empty-string `content` with a `session_id`
present leaves the session id untouched. -/
theorem session_update_needs_content_witness :
    (handleSendMessage
        { messages := [], isLoading := false, sessionId := none }
        "hi" (ChatTransport.ok 200 (some "") (some "abc"))).sessionId
      = none :=
  session_update_needs_content
    { messages := [], isLoading := false, sessionId := none }
    "hi" (ChatTransport.ok 200 (some "") (some "abc")) (by decide)

/-- JSON values, as produced by `JSON.parse` and consumed by
`JSON.stringify`. Numbers are carried as integers: no arithmetic is
performed on stored transcripts, and the claims need numbers only as
evidence of non-`Message` shapes. -/
inductive Json where
  | null
  | bool (b : Bool)
  | num (n : Int)
  | str (s : String)
  | arr (elems : List Json)
  | obj (fields : List (String × Json))

/-- The string form of the `sender` union value. -/
def senderText : Sender → String
  | Sender.user => "user"
  | Sender.alina => "alina"

/-- `JSON.stringify` of one `Message`, at the JSON-value level: an
object with the `text` and `sender` fields in declaration order. -/
def encodeMessage (m : Message) : Json :=
  Json.obj [("text", Json.str m.text), ("sender", Json.str (senderText m.sender))]

/-- `JSON.stringify` of a message list, at the JSON-value level. -/
def encodeMessages (l : List Message) : Json :=
  Json.arr (l.map encodeMessage)

/-- Interpretation of a JSON value as one `Message` (the shape the
transcript code writes). Used to state which stored values are valid
`Message` objects; the page itself performs no such validation. -/
def decodeMessage : Json → Option Message
  | Json.obj [("text", Json.str t), ("sender", Json.str s)] =>
      if s = "user" then some (userMsg t)
      else if s = "alina" then some (agentMsg t)
      else none
  | _ => none

/-- Decode a list of JSON values as messages, failing if any element
fails. -/
def decodeMsgList : List Json → Option (List Message)
  | [] => some []
  | j :: js =>
      match decodeMessage j, decodeMsgList js with
      | some m, some ms => some (m :: ms)
      | _, _ => none

/-- Interpretation of a JSON value as a transcript: a JSON array whose
elements are all valid `Message` objects. -/
def decodeMessages : Json → Option (List Message)
  | Json.arr elems => decodeMsgList elems
  | _ => none

theorem decodeMessage_encodeMessage (m : Message) :
    decodeMessage (encodeMessage m) = some m := by
  cases m with
  | mk t s => cases s <;> rfl

theorem decodeMessages_encodeMessages (l : List Message) :
    decodeMessages (encodeMessages l) = some l := by
  induction l with
  | nil => rfl
  | cons m ms ih =>
      simp only [encodeMessages, decodeMessages, List.map] at ih ⊢
      simp [decodeMsgList, decodeMessage_encodeMessage, ih]

/-- A stored `localStorage` cell holding JSON text, represented through
the only two operations the page applies to it: JavaScript truthiness
and `JSON.parse`. `absent`: the key is missing (`getItem` returns
null); `empty`: the stored string is `""` (falsy, `JSON.parse` never
reached); `invalid`: a non-empty string `JSON.parse` throws on;
`val j`: a non-empty string parsing to the JSON value `j`. -/
inductive Stored where
  | absent
  | empty
  | invalid
  | val (j : Json)

/-- The identity-scoped cells of the active user:
the transcript cell (key `alina-chat-history-` plus the name) and the
session cell (key `alina-session-id-` plus the name). -/
structure Storage where
  history : Stored
  session : Option String

/-- The session id resulting from the load effect reading the session
cell into an initially-null state: `if (savedSessionId)
setSessionId(savedSessionId)`. -/
def loadSession (cell : Option String) : Option String :=
  if jsTruthy cell then cell else none

/-- Embedding of the load effect (src/app/page.tsx lines 109-126) for a
user whose saved name is set. The first component is the JavaScript
value `setMessages` receives, kept in the untyped JSON domain because
`JSON.parse` performs no shape validation: a stored string that parses
is installed verbatim. A truthy stored string that fails to parse hits
the catch block, which installs a single greeting and skips the session
read; an absent or empty cell installs a single welcome-back greeting.
The function is total: the catch confines the `JSON.parse` exception. -/
def loadEffect (savedName : String) (store : Storage) : Json × Option String :=
  match store.history with
  | Stored.val j => (j, loadSession store.session)
  | Stored.invalid =>
      (encodeMessages [agentMsg "Hello! How can I help you today?"], none)
  | Stored.absent | Stored.empty =>
      (encodeMessages
        [agentMsg ("Welcome back, " ++ savedName ++ ". How can I help you today?")],
       loadSession store.session)

/-- Embedding of the persist effect (src/app/page.tsx lines 138-143)
for a user whose name is set: a non-empty transcript is written as its
`JSON.stringify`; an empty transcript writes nothing; a truthy session
id is written, a null one leaves the cell alone. -/
def persistEffect (messages : List Message) (sessionId : Option String)
    (store : Storage) : Storage :=
  { history :=
      if messages.length > 0 then Stored.val (encodeMessages messages)
      else store.history,
    session := if jsTruthy sessionId then sessionId else store.session }

/-- The body `{ session_id, transcript }` of the `POST /archive_chat`
request. -/
structure ArchiveRequest where
  session_id : String
  transcript : List Message

/-- The greeting `handleNewChat` installs. -/
def newChatGreeting (userName : Option String) : Message :=
  agentMsg
    ("Hello again, " ++ jsOr userName "friend" ++
      ". Let\x27s begin a new conversation.")

/-- Embedding of `handleNewChat` (src/app/page.tsx lines 173-189).
Returns the new chat state, the new storage, and the archival request
issued (if any). The archival `fetch` sits in its own try/catch whose
outcome (`_archiveOk`) is ignored: success and failure continue
identically, which the unused parameter makes definitional. The storage
cells are removed only under the `if (userName)` guard. -/
def handleNewChat (st : ChatState) (store : Storage)
    (userName : Option String) (_archiveOk : Bool) :
    ChatState × Storage × Option ArchiveRequest :=
  let req : Option ArchiveRequest :=
    if decide (st.messages.length > 1) && jsTruthy st.sessionId then
      some { session_id := jsOr st.sessionId "", transcript := st.messages }
    else none
  let store :=
    if jsTruthy userName then { history := Stored.absent, session := none }
    else store
  ({ messages := [newChatGreeting userName],
     isLoading := st.isLoading,
     sessionId := none },
   store, req)

/-- C1 (amended): when the chat transport rejects — the `fetch` promise
fails (network failure) or the response body is not valid JSON — exactly
one fallback error message is appended after the optimistic user
message, the loading flag is cleared, and the session id is untouched;
the handler is a total function, so no exception propagates. A non-2xx
status by itself does not reach the catch block: the code never reads
`response.ok`, so such a response is processed by its parsed body alone
(see the counterexample). -/
theorem send_failure_single_fallback (st : ChatState) (messageText : String) :
    (handleSendMessage st messageText ChatTransport.netError
      = { messages := st.messages ++ [userMsg messageText, fallbackMessage],
          isLoading := false, sessionId := st.sessionId }) ∧
    (∀ status : Nat,
      handleSendMessage st messageText (ChatTransport.badJson status)
        = { messages := st.messages ++ [userMsg messageText, fallbackMessage],
            isLoading := false, sessionId := st.sessionId }) := by
  constructor
  · simp [handleSendMessage]
  · intro status
    simp [handleSendMessage]

/-- Counterexample to C1 as stated: a 500 response whose body is valid
JSON without `content` (for example `{"error": ...}`) is a non-2xx
transport failure in the sense of the claim, yet no fallback error
message is appended — only the optimistic user message remains. -/
theorem send_non2xx_no_fallback_cex :
    handleSendMessage
        { messages := [agentMsg "Hello! How can I help you today?"],
          isLoading := false, sessionId := none }
        "hi" (ChatTransport.ok 500 none none)
      = { messages := [agentMsg "Hello! How can I help you today?",
                       userMsg "hi"],
          isLoading := false, sessionId := none } ∧
    fallbackMessage ∉
      (handleSendMessage
        { messages := [agentMsg "Hello! How can I help you today?"],
          isLoading := false, sessionId := none }
        "hi" (ChatTransport.ok 500 none none)).messages := by
  constructor
  · rfl
  · decide

/-- C2 (amended): for every non-empty transcript, writing it through the
persist effect (`JSON.stringify` into the identity-scoped history cell)
and reading it back through the load effect (`JSON.parse`) restores the
message sequence unchanged: the loaded value is exactly the encoding of
the transcript, and it decodes back to the very same message list. The
empty transcript is excluded because the persist effect deliberately
skips writing it (see the counterexample). -/
theorem transcript_round_trip (l : List Message) (name : String)
    (sid : Option String) (store : Storage) (h : l ≠ []) :
    (loadEffect name (persistEffect l sid store)).1 = encodeMessages l ∧
    decodeMessages (loadEffect name (persistEffect l sid store)).1
      = some l := by
  have hl : 0 < l.length := List.length_pos.mpr h
  constructor
  · simp [persistEffect, loadEffect, hl]
  · simp [persistEffect, loadEffect, hl, decodeMessages_encodeMessages]

/-- Witness for C2 at a concrete one-message transcript. -/
theorem transcript_round_trip_witness :
    ([userMsg "hi"] : List Message) ≠ [] ∧
    ((loadEffect "Ana"
        (persistEffect [userMsg "hi"] none
          { history := Stored.absent, session := none })).1
        = encodeMessages [userMsg "hi"] ∧
      decodeMessages
        (loadEffect "Ana"
          (persistEffect [userMsg "hi"] none
            { history := Stored.absent, session := none })).1
        = some [userMsg "hi"]) :=
  ⟨by decide,
   transcript_round_trip [userMsg "hi"] "Ana" none
     { history := Stored.absent, session := none } (by decide)⟩

/-- Counterexample to C2 as stated: the empty list is a valid JSON array
of `Message`, but the persist effect writes nothing for it
(`messages.length > 0` guard), so saving the empty transcript over a
stored one-message history and reloading yields that old message list,
not the empty one. -/
theorem transcript_round_trip_empty_cex :
    (loadEffect "Ana"
        (persistEffect [] none
          { history := Stored.val (encodeMessages [agentMsg "old"]),
            session := none })).1
      ≠ encodeMessages ([] : List Message) ∧
    decodeMessages
        (loadEffect "Ana"
          (persistEffect [] none
            { history := Stored.val (encodeMessages [agentMsg "old"]),
              session := none })).1
      = some [agentMsg "old"] := by
  constructor
  · simp [persistEffect, loadEffect, encodeMessages, encodeMessage]
  · rfl

/-- C3 (amended): a malformed history cell in the sense the code can
detect — a non-empty stored string `JSON.parse` throws on, or the falsy
empty string — makes the load effect install exactly one synthesized
greeting, and the load effect is a total function (the catch block
confines the parse exception). A stored string that parses to JSON of
some non-transcript shape is instead installed verbatim (see the
counterexample). -/
theorem malformed_history_single_greeting (name : String)
    (sess : Option String) :
    loadEffect name { history := Stored.invalid, session := sess }
      = (encodeMessages [agentMsg "Hello! How can I help you today?"],
         none) ∧
    (loadEffect name { history := Stored.empty, session := sess }).1
      = encodeMessages
          [agentMsg
            ("Welcome back, " ++ name ++ ". How can I help you today?")] := by
  constructor <;> rfl

/-- Counterexample to C3 as stated: the stored string `42` is not a
valid JSON array of `Message`, yet `JSON.parse` accepts it, so the load
effect installs the bare number 42 as the message state — not a
transcript of exactly one greeting (it decodes as no transcript at
all). -/
theorem malformed_history_cex :
    (loadEffect "Ana"
        { history := Stored.val (Json.num 42), session := none }).1
      = Json.num 42 ∧
    decodeMessages (Json.num 42) = none := by
  constructor <;> rfl

/-- C6: `handleNewChat` issues an archival request exactly when the
transcript holds more than one message and the session id is set; in
particular, with only the initial greeting present (one message) no
request is issued. -/
theorem archive_iff_nontrivial (st : ChatState) (store : Storage)
    (userName : Option String) (ok : Bool) :
    ((handleNewChat st store userName ok).2.2).isSome
      = (decide (st.messages.length > 1) && jsTruthy st.sessionId) := by
  cases hb : decide (st.messages.length > 1) && jsTruthy st.sessionId <;>
    simp [handleNewChat, hb]

/-- C7: whatever the archival attempt does (the outcome parameter is
ignored by construction, matching the swallowed try/catch), and for the
set user name the page guard guarantees, `handleNewChat` removes both
identity-scoped storage cells, resets the transcript to exactly one
fresh greeting, and clears the session id. -/
theorem new_chat_reset (st : ChatState) (store : Storage)
    (userName : Option String) (ok : Bool)
    (h : jsTruthy userName = true) :
    (handleNewChat st store userName ok).1
      = { messages := [newChatGreeting userName],
          isLoading := st.isLoading, sessionId := none } ∧
    (handleNewChat st store userName ok).2.1
      = { history := Stored.absent, session := none } := by
  constructor <;> simp [handleNewChat, h]

/-- Witness for C7 at a concrete state with a set user name, archival
succeeding. -/
theorem new_chat_reset_witness :
    jsTruthy (some "Ana") = true ∧
    ((handleNewChat
        { messages := [agentMsg "x", userMsg "y"], isLoading := false,
          sessionId := some "s1" }
        { history := Stored.invalid, session := some "s1" }
        (some "Ana") true).1
      = { messages := [newChatGreeting (some "Ana")], isLoading := false,
          sessionId := none } ∧
     (handleNewChat
        { messages := [agentMsg "x", userMsg "y"], isLoading := false,
          sessionId := some "s1" }
        { history := Stored.invalid, session := some "s1" }
        (some "Ana") true).2.1
      = { history := Stored.absent, session := none }) :=
  ⟨by decide,
   new_chat_reset
     { messages := [agentMsg "x", userMsg "y"], isLoading := false,
       sessionId := some "s1" }
     { history := Stored.invalid, session := some "s1" }
     (some "Ana") true (by decide)⟩

namespace TaskLog

/-- The `parameters` object of a `Task`: `{ query?: string }`. -/
structure TaskParams where
  query : Option String
deriving DecidableEq, Repr

/-- `type Task` from src/app/tasks/page.tsx: the backend-owned record
the log view renders read-only. `parameters` is optional because the
code guards it with optional chaining. -/
structure Task where
  id : Int
  type : String
  status : String
  parameters : Option TaskParams
  created_at : String
  completed_at : Option String
deriving DecidableEq, Repr

/-- `type FetchResult` from src/app/tasks/page.tsx. -/
structure FetchResult where
  tasks : List Task
  error : Option String
deriving DecidableEq, Repr

/-- Outcome of the `fetch` to the tasks endpoint: the request rejects,
or a response with the given status arrives whose body either fails to
parse as JSON or parses as a task array. -/
inductive TasksBody where
  | parseError
  | parsed (tasks : List Task)
deriving DecidableEq, Repr

inductive TasksTransport where
  | netError
  | reply (status : Nat) (body : TasksBody)
deriving DecidableEq, Repr

/-- `res.ok`: the HTTP status is in the 2xx range. -/
def resOk (status : Nat) : Bool :=
  200 ≤ status && status ≤ 299

/-- Embedding of `getTasks` (src/app/tasks/page.tsx lines 35-54): a
falsy configured API URL, a rejected fetch, a non-ok status, and a
non-JSON body each produce an empty task list with the corresponding
error string; an ok status with a parsed body produces the tasks with
no error. The catch keeps the function total. -/
def getTasks (apiUrl : Option String) (tr : TasksTransport) : FetchResult :=
  if jsTruthy apiUrl = false then
    { tasks := [], error := some "API URL is not configured." }
  else
    match tr with
    | TasksTransport.netError =>
        { tasks := [], error := some "Could not connect to the backend API." }
    | TasksTransport.reply status body =>
        if resOk status = false then
          { tasks := [],
            error := some ("Failed to fetch tasks. Status: " ++ toString status) }
        else
          match body with
          | TasksBody.parseError =>
              { tasks := [],
                error := some "Could not connect to the backend API." }
          | TasksBody.parsed tasks => { tasks := tasks, error := none }

/-- Embedding of `getStatusColor` (src/app/tasks/page.tsx lines 26-33). -/
def getStatusColor (status : String) : String :=
  if status = "completed" then "bg-green-500/20 text-green-400"
  else if status = "in_progress" then "bg-blue-500/20 text-blue-400"
  else if status = "failed" then "bg-red-500/20 text-red-400"
  else "bg-gray-500/20 text-gray-400"

/-- One rendered table row of the task log. The date column goes
through `formatDate` (a `Date`/locale computation outside the
embedding), so the row carries the raw `created_at` string. -/
structure TaskRow where
  id : Int
  type : String
  status : String
  statusColor : String
  query : String
  created_at : String
deriving DecidableEq, Repr

/-- The data of one row as `TasksPage` renders it (lines 97-111),
including the `task.parameters?.query || 'N/A'` fallback. -/
def renderRow (t : Task) : TaskRow :=
  { id := t.id,
    type := t.type,
    status := t.status,
    statusColor := getStatusColor t.status,
    query :=
      jsOr (match t.parameters with | some p => p.query | none => none) "N/A",
    created_at := t.created_at }

/-- What the body of `TasksPage` shows: the dedicated error panel with
its message, or the task table together with the conditional
`No tasks found.` message. -/
inductive TasksView where
  | errorPanel (message : String)
  | taskList (rows : List TaskRow) (showNoTasks : Bool)
deriving DecidableEq, Repr

/-- Embedding of the conditional rendering in `TasksPage` (lines
82-118): a truthy `error` renders only the error panel; otherwise every
task is mapped to one row in order, and the `No tasks found.` message
shows exactly when the list is empty. -/
def renderTasksPage (r : FetchResult) : TasksView :=
  if jsTruthy r.error then TasksView.errorPanel (jsOr r.error "")
  else TasksView.taskList (r.tasks.map renderRow) r.tasks.isEmpty

theorem statusMessage_ne_empty (t : String) :
    ("Failed to fetch tasks. Status: " ++ t) ≠ "" := by
  intro h
  have h2 := congrArg String.length h
  rw [String.length_append] at h2
  have h3 : ("Failed to fetch tasks. Status: " : String).length = 31 := by
    decide
  rw [h3] at h2
  simp at h2

/-- C9: with a configured API URL, a non-ok HTTP status renders the
error panel — never the task table — with the message carrying that
status; an ok status with an empty task array renders the table with
the `No tasks found.` message; an ok status with a non-empty array
renders exactly one row per task, in the order the backend returned
them, with no `No tasks found.` message. -/
theorem tasks_render_spec (url : String) (status : Nat)
    (body : TasksBody) (ts : List Task) (hurl : url ≠ "") :
    (resOk status = false →
      renderTasksPage
          (getTasks (some url) (TasksTransport.reply status body))
        = TasksView.errorPanel
            ("Failed to fetch tasks. Status: " ++ toString status)) ∧
    (resOk status = true →
      renderTasksPage
          (getTasks (some url)
            (TasksTransport.reply status (TasksBody.parsed ts)))
        = TasksView.taskList (ts.map renderRow) ts.isEmpty) := by
  constructor
  · intro hbad
    simp [getTasks, renderTasksPage, jsTruthy, jsOr, hurl, hbad,
      statusMessage_ne_empty (toString status)]
  · intro hok
    simp [getTasks, renderTasksPage, jsTruthy, jsOr, hurl, hok]

/-- Witness for C9: a 500 reply yields the error panel naming the
status; a 200 reply with one task yields its single row and no
`No tasks found.` message. -/
theorem tasks_render_spec_witness :
    ("http://api" : String) ≠ "" ∧ resOk 500 = false ∧ resOk 200 = true ∧
    renderTasksPage
        (getTasks (some "http://api")
          (TasksTransport.reply 500 TasksBody.parseError))
      = TasksView.errorPanel "Failed to fetch tasks. Status: 500" ∧
    renderTasksPage
        (getTasks (some "http://api")
          (TasksTransport.reply 200 (TasksBody.parsed
            [{ id := 1, type := "search", status := "completed",
               parameters := some { query := some "llm" },
               created_at := "2025-01-01", completed_at := none }])))
      = TasksView.taskList
          [renderRow
            { id := 1, type := "search", status := "completed",
              parameters := some { query := some "llm" },
              created_at := "2025-01-01", completed_at := none }] false := by
  refine ⟨by decide, by decide, by decide, ?_, ?_⟩
  · have h :=
      (tasks_render_spec "http://api" 500 TasksBody.parseError [] (by decide)).1
        (by decide)
    simpa using h
  · have h :=
      (tasks_render_spec "http://api" 200 TasksBody.parseError
        [{ id := 1, type := "search", status := "completed",
           parameters := some { query := some "llm" },
           created_at := "2025-01-01", completed_at := none }] (by decide)).2
        (by decide)
    simpa using h

end TaskLog
